import Mathlib

/-!
Verification development for the xgparser repository (Go): a decoder for the
eXtremeGammon (.xg) match-file container format.

The Go sources are shallowly embedded below.  Byte streams are `List Nat`
(each element one byte, 0–255); `bytes.Reader` positions are explicit `Nat`
cursors; Go's `int8`/`int16`/`int32` values are `Int` obtained by two's
complement reinterpretation of the little-endian bytes; `float32`/`float64`
fields are decoded to exact rationals (`ℚ`) by interpreting the IEEE-754
bit pattern (NaN/infinity payloads, which cannot occur in the fields the
assembler computes with, are mapped to 0); Go strings are `List Nat` of
code units.  Fallible operations return `Except`.

A note on `binary.Read` (encoding/binary) against a short buffer: Go then
consumes the remaining bytes and leaves the destination at its zero value.
`readRaw` below models the destination faithfully (zero value) but advances
the cursor by the full field width; the two cursors can therefore differ
after a short read inside a record decoder.  That intermediate cursor is
never observable: the record loop (`GameFileRecord.FromStream`) overwrites
it with the fixed slot seek `startPos + 2560`, and every theorem below that
inspects a decoder's final cursor assumes the slot's bytes are present.
-/

deriving instance DecidableEq for Except

namespace XG

/-! ## Byte-level utilities (xgutils.go and friends) -/

/-- Byte of `data` at index `i` (0 past the end, matching Go's zero value). -/
def byteAt (data : List Nat) (i : Nat) : Nat := data.getD i 0

/-- The `n` bytes of `data` starting at `pos`. -/
def segBytes (data : List Nat) (pos n : Nat) : List Nat := (data.drop pos).take n

/-- Model of one `binary.Read` of `n` bytes at cursor `pos`: the field bytes
when they are all present, and the Go zero value (all-zero bytes) when the
buffer is short (see the header comment). -/
def readRaw (data : List Nat) (pos n : Nat) : List Nat :=
  if pos + n ≤ data.length then segBytes data pos n else List.replicate n 0

/-- Little-endian unsigned value of a byte list. -/
def leNat (bs : List Nat) : Nat := bs.foldr (fun b acc => b % 256 + 256 * acc) 0

/-- Two's complement reinterpretation of a `w`-bit unsigned value. -/
def toSigned (w v : Nat) : Int :=
  if v % 2 ^ w < 2 ^ (w - 1) then ((v % 2 ^ w : Nat) : Int)
  else ((v % 2 ^ w : Nat) : Int) - 2 ^ w

/-- Go `int8` value of one byte. -/
def int8val (b : Nat) : Int := toSigned 8 b

/-- Read a little-endian `int32` at `pos`. -/
def readI32 (data : List Nat) (pos : Nat) : Int := toSigned 32 (leNat (readRaw data pos 4))

/-- Read a little-endian `int16` at `pos`. -/
def readI16 (data : List Nat) (pos : Nat) : Int := toSigned 16 (leNat (readRaw data pos 2))

/-- Read a little-endian `uint32` at `pos`. -/
def readU32 (data : List Nat) (pos : Nat) : Nat := leNat (readRaw data pos 4)

/-- Read one byte at `pos` (an unsigned Go `byte`). -/
def readByte (data : List Nat) (pos : Nat) : Nat := leNat (readRaw data pos 1)

/-- Read a Go `int8` at `pos`. -/
def readI8 (data : List Nat) (pos : Nat) : Int := int8val (readByte data pos)

/-- Go `b != 0` conversion of a freshly read byte. -/
def readBool (data : List Nat) (pos : Nat) : Bool := readByte data pos ≠ 0

/-- Exact rational value of an IEEE-754 single-precision bit pattern.
NaN and infinity (exponent 255) are mapped to 0; they do not occur in the
fields the domain assembler computes with. -/
def float32ToRat (bits : Nat) : ℚ :=
  let s : Nat := bits / 2 ^ 31 % 2
  let e : Nat := bits / 2 ^ 23 % 2 ^ 8
  let m : Nat := bits % 2 ^ 23
  let mag : ℚ :=
    if e = 255 then 0
    else if e = 0 then (m : ℚ) / 2 ^ 149
    else ((2 ^ 23 + m : Nat) : ℚ) * 2 ^ e / 2 ^ 150
  if s = 1 then -mag else mag

/-- Exact rational value of an IEEE-754 double-precision bit pattern (same
conventions as `float32ToRat`). -/
def float64ToRat (bits : Nat) : ℚ :=
  let s : Nat := bits / 2 ^ 63 % 2
  let e : Nat := bits / 2 ^ 52 % 2 ^ 11
  let m : Nat := bits % 2 ^ 52
  let mag : ℚ :=
    if e = 2047 then 0
    else if e = 0 then (m : ℚ) / 2 ^ 1074
    else ((2 ^ 52 + m : Nat) : ℚ) * 2 ^ e / 2 ^ 1075
  if s = 1 then -mag else mag

/-- Read a little-endian `float32` at `pos` as an exact rational. -/
def readF32 (data : List Nat) (pos : Nat) : ℚ := float32ToRat (leNat (readRaw data pos 4))

/-- Read a little-endian `float64` at `pos` as an exact rational. -/
def readF64 (data : List Nat) (pos : Nat) : ℚ := float64ToRat (leNat (readRaw data pos 8))

/-- `DelphiShortStrToStr` (xgutils.go): first byte is the length, clamped to
the buffer; the string is the following bytes. -/
def delphiShortStr (bs : List Nat) : List Nat :=
  match bs with
  | [] => []
  | len :: rest =>
    let l := if len ≥ bs.length then bs.length - 1 else len
    rest.take l

/-- Read a Delphi shortstring stored in an `n`-byte buffer at `pos`. -/
def readShortStr (data : List Nat) (pos n : Nat) : List Nat :=
  delphiShortStr (readRaw data pos n)

/-- Group a byte list into little-endian `uint16` code units
(`ReadUTF16Array` in xgutils.go). -/
def leU16s : List Nat → List Nat
  | b0 :: b1 :: rest => (b0 % 256 + 256 * (b1 % 256)) :: leU16s rest
  | _ => []

/-- `UTF16IntArrayToString` (xgutils.go): the code units before the first
null terminator; when no null occurs the scanned length stays 0 and the
result is empty, mirroring the Go loop. -/
def utf16Str (units : List Nat) : List Nat :=
  match units.findIdx? (· = 0) with
  | none => []
  | some i => units.take i

/-- Read a null-terminated UTF-16 buffer of `count` code units at `pos`. -/
def readUTF16 (data : List Nat) (pos count : Nat) : List Nat :=
  utf16Str (leU16s (readRaw data pos (2 * count)))

/-- Read a Go `[26]int8` checker vector at `pos`. -/
def readPos26 (data : List Nat) (pos : Nat) : Fin 26 → Int :=
  fun i => int8val (byteAt (readRaw data pos 26) i.val)

/-! ## CRC32 (hash/crc32, IEEE polynomial, as used by `StreamCRC32` and
`crc32.ChecksumIEEE`) -/

/-- One bit step of the reflected CRC-32 (IEEE polynomial 0xEDB88320). -/
def crc32Bit (c : Nat) : Nat :=
  if c % 2 = 1 then (c / 2) ^^^ 0xEDB88320 else c / 2

/-- Fold one byte into the running CRC. -/
def crc32Byte (c b : Nat) : Nat := crc32Bit^[8] (c ^^^ (b % 256))

/-- CRC-32 (IEEE) of a byte list. -/
def crc32 (bs : List Nat) : Nat := (bs.foldl crc32Byte 0xFFFFFFFF) ^^^ 0xFFFFFFFF

/-! ## Perspective normalization (xgtext.go: `swapPositionCheckers`,
`swapPosition`) and the lightweight `Position` type (xglight.go) -/

/-- Go `int8` negation (two's complement: `-(-128)` wraps to `-128`). -/
def int8neg (x : Int) : Int := (128 - x) % 256 - 128

/-- Go `int32` negation (two's complement wraparound). -/
def int32neg (x : Int) : Int := (2147483648 - x) % 4294967296 - 2147483648

/-- `Position` (xglight.go): 26-slot checker vector, cube value, cube
position, score pair. -/
structure Position where
  Checkers : Fin 26 → Int
  Cube : Int
  CubePos : Int
  Score : Int × Int
deriving DecidableEq

/-- `swapPositionCheckers` (xgtext.go): `swapped[0] = -pos[25]`,
`swapped[i] = -pos[25-i]` for `1 ≤ i ≤ 24`, `swapped[25] = -pos[0]`. -/
def swapPositionCheckers (pos : Fin 26 → Int) : Fin 26 → Int := fun i =>
  if i.val = 0 then int8neg (pos ⟨25, by omega⟩)
  else if i.val = 25 then int8neg (pos ⟨0, by omega⟩)
  else int8neg (pos ⟨25 - i.val, by omega⟩)

/-- `swapPosition` (xgtext.go): swap checkers, negate the cube owner, swap
the score pair; the cube value is unchanged. -/
def swapPosition (p : Position) : Position :=
  { Checkers := swapPositionCheckers p.Checkers
    Cube := p.Cube
    CubePos := int32neg p.CubePos
    Score := (p.Score.2, p.Score.1) }

theorem int8neg_invol {x : Int} (h1 : -128 ≤ x) (h2 : x ≤ 127) :
    int8neg (int8neg x) = x := by
  simp only [int8neg]
  omega

theorem int32neg_invol {x : Int} (h1 : -2147483648 ≤ x) (h2 : x ≤ 2147483647) :
    int32neg (int32neg x) = x := by
  simp only [int32neg]
  omega

theorem swapPositionCheckers_invol (q : Fin 26 → Int)
    (hq : ∀ i, -128 ≤ q i ∧ q i ≤ 127) :
    swapPositionCheckers (swapPositionCheckers q) = q := by
  funext i
  by_cases hv0 : i.val = 0
  · have hi : i = ⟨0, by omega⟩ := Fin.ext hv0
    rw [hi]
    simp [swapPositionCheckers]
    exact int8neg_invol (hq _).1 (hq _).2
  · by_cases hv25 : i.val = 25
    · have hi : i = ⟨25, by omega⟩ := Fin.ext hv25
      rw [hi]
      simp [swapPositionCheckers]
      exact int8neg_invol (hq _).1 (hq _).2
    · have h24 : i.val ≤ 24 := by have := i.isLt; omega
      have hne0' : ¬ (25 - i.val = 0) := by omega
      have hne25' : ¬ (25 - i.val = 25) := by omega
      simp only [swapPositionCheckers, hv0, hv25, hne0', hne25', if_false]
      have hidx : (⟨25 - (25 - i.val), by omega⟩ : Fin 26) = i := Fin.ext (by simp; omega)
      rw [hidx]
      exact int8neg_invol (hq _).1 (hq _).2

/-- C3: perspective normalization is an involution: `swapPosition` applied
twice returns the original `Position` field for field, and
`swapPositionCheckers` applied twice returns the original 26-slot vector. -/
theorem swapPosition_involutive (p : Position)
    (hc : ∀ i, -128 ≤ p.Checkers i ∧ p.Checkers i ≤ 127)
    (hcp1 : -2147483648 ≤ p.CubePos) (hcp2 : p.CubePos ≤ 2147483647) :
    swapPosition (swapPosition p) = p ∧
    (∀ q : Fin 26 → Int, (∀ i, -128 ≤ q i ∧ q i ≤ 127) →
      swapPositionCheckers (swapPositionCheckers q) = q) := by
  refine ⟨?_, fun q hq => swapPositionCheckers_invol q hq⟩
  cases p with
  | mk ch cu cp sc =>
    simp only [swapPosition, Position.mk.injEq]
    exact ⟨swapPositionCheckers_invol ch hc, trivial, int32neg_invol hcp1 hcp2, trivial⟩

/-- Witness for C3 at a concrete position. -/
theorem swapPosition_involutive_witness :
    let pW : Position :=
      { Checkers := fun i => if i.val = 0 then -2 else if i.val = 5 then 3 else
          if i.val = 25 then 1 else 0
        Cube := 2, CubePos := 1, Score := (3, 5) }
    swapPosition (swapPosition pW) = pW := by
  intro pW
  exact (swapPosition_involutive pW (by decide) (by decide) (by decide)).1

/-! ## Archive reader (xgzarc.go: `ArchiveRecord`, `FileRecord`,
`getArchiveIndex`, `extractSegment`, `GetArchiveFile`, and `StreamCRC32`
from xgutils.go) -/

/-- `ArchiveRecord`: the 36-byte trailer at the end of the stream (the
12 reserved bytes are not retained). -/
structure ArchiveRecord where
  CRC : Nat
  FileCount : Int
  Version : Int
  RegistrySize : Int
  ArchiveSize : Int
  CompressedRegistry : Int
deriving DecidableEq

/-- `binary.Read` of the trailer at byte offset `pos`. -/
def readArchiveRecord (data : List Nat) (pos : Nat) : ArchiveRecord :=
  { CRC := readU32 data pos
    FileCount := readI32 data (pos + 4)
    Version := readI32 data (pos + 8)
    RegistrySize := readI32 data (pos + 12)
    ArchiveSize := readI32 data (pos + 16)
    CompressedRegistry := readI32 data (pos + 20) }

/-- `StreamCRC32` (xgutils.go): seek to `startPos` when it is nonnegative
(otherwise compute from the current position `cur`), then CRC32 over
`numBytes` bytes (`io.CopyN`, EOF when short) or to the end of the stream
when `numBytes ≤ 0` (`io.Copy`). -/
def streamCRC32 (data : List Nat) (cur : Nat) (numBytes startPos : Int) :
    Except String Nat :=
  let p : Nat := if 0 ≤ startPos then startPos.toNat else cur
  if 0 < numBytes then
    if (p : Int) + numBytes ≤ (data.length : Int) then
      .ok (crc32 (segBytes data p numBytes.toNat))
    else .error "EOF"
  else .ok (crc32 (data.drop p))

/-- `getArchiveIndex` (xgzarc.go) up to and including its trailer-CRC
verification: read the trailer at `end − 36`, seek to
`end − 36 − RegistrySize`, set `StartOfArcData` a further `ArchiveSize`
bytes back, CRC32 the range `[StartOfArcData, EndOfArcData)` and compare
with the stored checksum.  (The subsequent zlib decompression of the index
is outside the scope of the checksum claim and is not modelled.)  On
success it returns the trailer together with `StartOfArcData` and
`EndOfArcData`. -/
def getArchiveIndexCheck (data : List Nat) :
    Except String (ArchiveRecord × Int × Int) :=
  if (data.length : Int) - 36 < 0 then .error "seek"
  else
    let endOfArcData : Int := (data.length : Int) - 36
    let arcRec := readArchiveRecord data endOfArcData.toNat
    if (data.length : Int) - 36 - arcRec.RegistrySize < 0 then .error "seek"
    else
      let startOfArcData : Int :=
        (data.length : Int) - 36 - arcRec.RegistrySize - arcRec.ArchiveSize
      match streamCRC32 data data.length (endOfArcData - startOfArcData)
          startOfArcData with
      | .error e => .error e
      | .ok crc =>
        if crc ≠ arcRec.CRC then .error "archive CRC check failed - file corrupt"
        else .ok (arcRec, startOfArcData, endOfArcData)

/-- The byte range claim C2 says is checksummed, following the spec's words:
`indexSize` bytes ending where the 36-byte trailer begins. -/
def c2ClaimRange (data : List Nat) : List Nat :=
  let arcRec := readArchiveRecord data (data.length - 36)
  segBytes data ((data.length : Int) - 36 - arcRec.RegistrySize).toNat
    arcRec.RegistrySize.toNat

/-- C2 (counterexample): a 40-byte stream whose trailer has
`RegistrySize = 2` and `ArchiveSize = 2`, and whose stored checksum equals
the CRC32 of the 2 index bytes alone (the range the claim names).
`getArchiveIndex` nevertheless fails its CRC check, because the code
checksums `RegistrySize + ArchiveSize` bytes, not `RegistrySize` bytes:
the claim's "fails iff the CRC over `[end − 36 − indexSize, end − 36)`
differs" is false here. -/
theorem getArchiveIndex_crc_range_cex :
    let dC2 : List Nat :=
      [1, 2, 3, 4] ++ ([37, 133, 153, 109] ++ [0, 0, 0, 0] ++ [0, 0, 0, 0] ++
        [2, 0, 0, 0] ++ [2, 0, 0, 0] ++ [0, 0, 0, 0] ++ List.replicate 12 0)
    getArchiveIndexCheck dC2 = .error "archive CRC check failed - file corrupt" ∧
      crc32 (c2ClaimRange dC2) = (readArchiveRecord dC2 (dC2.length - 36)).CRC := by
  constructor
  · decide
  · decide

/-- C2 (amended): `getArchiveIndex` verifies the stored checksum by
computing CRC32 over the byte range
`[archiveEnd − trailerSize − indexSize − archiveSize, archiveEnd − trailerSize)`
— i.e. over `indexSize + archiveSize` bytes ending where the 36-byte
trailer begins — and fails iff the computed CRC differs from the stored
one. -/
theorem getArchiveIndex_crc_range (data : List Nat) (h36 : 36 ≤ data.length)
    (hra : 0 ≤ (readArchiveRecord data (data.length - 36)).ArchiveSize)
    (hstart : 0 ≤ (data.length : Int) - 36 -
      (readArchiveRecord data (data.length - 36)).RegistrySize -
      (readArchiveRecord data (data.length - 36)).ArchiveSize)
    (hpos : 0 < (readArchiveRecord data (data.length - 36)).RegistrySize +
      (readArchiveRecord data (data.length - 36)).ArchiveSize) :
    getArchiveIndexCheck data =
      (if crc32 (segBytes data
            ((data.length : Int) - 36 -
              (readArchiveRecord data (data.length - 36)).RegistrySize -
              (readArchiveRecord data (data.length - 36)).ArchiveSize).toNat
            ((readArchiveRecord data (data.length - 36)).RegistrySize +
              (readArchiveRecord data (data.length - 36)).ArchiveSize).toNat)
          = (readArchiveRecord data (data.length - 36)).CRC
       then .ok (readArchiveRecord data (data.length - 36),
          (data.length : Int) - 36 -
            (readArchiveRecord data (data.length - 36)).RegistrySize -
            (readArchiveRecord data (data.length - 36)).ArchiveSize,
          (data.length : Int) - 36)
       else .error "archive CRC check failed - file corrupt") := by
  have htonat : ((data.length : Int) - 36).toNat = data.length - 36 := by omega
  simp only [getArchiveIndexCheck, streamCRC32, htonat]
  rw [if_neg (by omega : ¬ ((data.length : Int) - 36 < 0))]
  rw [if_neg (by omega : ¬ ((data.length : Int) - 36 -
    (readArchiveRecord data (data.length - 36)).RegistrySize < 0))]
  rw [if_pos hstart]
  rw [if_pos (by omega : (0 : Int) < (data.length : Int) - 36 -
    ((data.length : Int) - 36 - (readArchiveRecord data (data.length - 36)).RegistrySize -
      (readArchiveRecord data (data.length - 36)).ArchiveSize))]
  rw [if_pos (by omega :
    ((((data.length : Int) - 36 - (readArchiveRecord data (data.length - 36)).RegistrySize -
        (readArchiveRecord data (data.length - 36)).ArchiveSize).toNat : Int) +
      ((data.length : Int) - 36 -
        ((data.length : Int) - 36 - (readArchiveRecord data (data.length - 36)).RegistrySize -
          (readArchiveRecord data (data.length - 36)).ArchiveSize)) ≤ (data.length : Int)))]
  rw [(by omega : ((data.length : Int) - 36 -
      ((data.length : Int) - 36 - (readArchiveRecord data (data.length - 36)).RegistrySize -
        (readArchiveRecord data (data.length - 36)).ArchiveSize)).toNat =
    ((readArchiveRecord data (data.length - 36)).RegistrySize +
      (readArchiveRecord data (data.length - 36)).ArchiveSize).toNat)]
  by_cases hcrc : crc32 (segBytes data
      ((data.length : Int) - 36 - (readArchiveRecord data (data.length - 36)).RegistrySize -
        (readArchiveRecord data (data.length - 36)).ArchiveSize).toNat
      ((readArchiveRecord data (data.length - 36)).RegistrySize +
        (readArchiveRecord data (data.length - 36)).ArchiveSize).toNat) =
      (readArchiveRecord data (data.length - 36)).CRC
  · rw [if_pos hcrc]; simp [hcrc]
  · rw [if_neg hcrc]; simp [hcrc]

/-- Witness for the amended C2 at a concrete 40-byte archive whose stored
checksum matches the CRC over the data-plus-index range. -/
theorem getArchiveIndex_crc_range_witness :
    let dW : List Nat :=
      [1, 2, 3, 4] ++ ([205, 251, 60, 182] ++ [0, 0, 0, 0] ++ [0, 0, 0, 0] ++
        [2, 0, 0, 0] ++ [2, 0, 0, 0] ++ [0, 0, 0, 0] ++ List.replicate 12 0)
    getArchiveIndexCheck dW =
      .ok (readArchiveRecord dW (dW.length - 36), 0, (dW.length : Int) - 36) := by
  intro dW
  have h := getArchiveIndex_crc_range dW (by decide) (by decide) (by decide) (by decide)
  simp only at h
  rw [h]
  decide

/-- `FileRecord` (xgzarc.go): one entry of the archive's file registry. -/
structure FileRecord where
  Name : List Nat
  Path : List Nat
  OSize : Int
  CSize : Int
  Start : Int
  CRC : Nat
  Compressed : Nat
  CompressionLevel : Nat
deriving DecidableEq

/-- `extractSegment` (xgzarc.go), parametrized by the zlib `inflate`
function (compress/zlib is not remodelled here): when `isCompressed`,
decompress the stream from the current position; otherwise `numBytes` must
be nonzero (and, for Go's `make`, nonnegative) and that many raw bytes are
read (`io.ReadFull`, EOF when short). -/
def extractSegment (inflate : List Nat → Except String (List Nat))
    (data : List Nat) (pos : Nat) (isCompressed : Bool) (numBytes : Int) :
    Except String (List Nat) :=
  if isCompressed then inflate (data.drop pos)
  else if numBytes = 0 then .error "numBytes must be specified for uncompressed segments"
  else if numBytes < 0 then .error "invalid segment size"
  else if (pos : Int) + numBytes ≤ (data.length : Int) then
    .ok (segBytes data pos numBytes.toNat)
  else .error "EOF"

/-- `GetArchiveFile` (xgzarc.go): seek to `entry.Start + StartOfArcData`,
extract (note the inverted flag: the zlib path is taken when
`Compressed == 0`), then verify CRC32 of the resulting bytes against the
entry's stored checksum. -/
def GetArchiveFile (inflate : List Nat → Except String (List Nat))
    (data : List Nat) (startOfArcData : Int) (rec : FileRecord) :
    Except String (List Nat) :=
  if rec.Start + startOfArcData < 0 then .error "seek"
  else
    match extractSegment inflate data (rec.Start + startOfArcData).toNat
        (rec.Compressed == 0) rec.CSize with
    | .error e => .error e
    | .ok bytes =>
      if crc32 bytes ≠ rec.CRC then .error "file CRC check failed - file corrupt"
      else .ok bytes

/-- C6: `GetArchiveFile` reads at `archiveOrigin + entry.Start`, following
the zlib path exactly when the `Compressed` flag byte is 0 and the raw
`CSize`-byte path when it is nonzero, and returns bytes exactly when their
CRC32 equals the entry's stored checksum (an error, and no bytes,
otherwise). -/
theorem getArchiveFile_crc_gate (inflate : List Nat → Except String (List Nat))
    (data : List Nat) (soa : Int) (rec : FileRecord) (bs : List Nat)
    (hpos : 0 ≤ rec.Start + soa) (hcs : 0 < rec.CSize)
    (hlen : ((rec.Start + soa).toNat : Int) + rec.CSize ≤ (data.length : Int)) :
    (rec.Compressed = 0 →
      (GetArchiveFile inflate data soa rec = .ok bs ↔
        inflate (data.drop (rec.Start + soa).toNat) = .ok bs ∧ crc32 bs = rec.CRC)) ∧
    (rec.Compressed ≠ 0 →
      (GetArchiveFile inflate data soa rec = .ok bs ↔
        bs = segBytes data (rec.Start + soa).toNat rec.CSize.toNat ∧
          crc32 bs = rec.CRC)) := by
  have hseek : ¬ (rec.Start + soa < 0) := by omega
  constructor
  · intro hflag
    simp only [GetArchiveFile, extractSegment, hseek, if_false, hflag]
    simp only [beq_self_eq_true, if_true]
    cases hinf : inflate (data.drop (rec.Start + soa).toNat) with
    | error e =>
      simp only []
      constructor
      · intro h; cases h
      · rintro ⟨h1, h2⟩; cases h1
    | ok v =>
      simp only []
      by_cases hcrc : crc32 v = rec.CRC
      · simp only [hcrc, ne_eq, not_true_eq_false, if_false]
        constructor
        · rintro h; cases h; exact ⟨rfl, hcrc⟩
        · rintro ⟨h1, h2⟩; cases h1; rfl
      · simp only [ne_eq, hcrc, not_false_eq_true, if_true]
        constructor
        · intro h; cases h
        · rintro ⟨h1, h2⟩; cases h1; exact absurd h2 hcrc
  · intro hflag
    have hbeq : (rec.Compressed == 0) = false := by
      simp [hflag]
    simp only [GetArchiveFile, extractSegment, hseek, if_false, hbeq]
    have h0 : ¬ (rec.CSize = 0) := by omega
    have hneg : ¬ (rec.CSize < 0) := by omega
    simp only [Bool.false_eq_true, if_false, h0, hneg, if_pos hlen]
    by_cases hcrc : crc32 (segBytes data (rec.Start + soa).toNat rec.CSize.toNat) = rec.CRC
    · simp only [hcrc, ne_eq, not_true_eq_false, if_false]
      constructor
      · intro h; cases h; exact ⟨rfl, hcrc⟩
      · rintro ⟨h1, h2⟩; cases h1; rfl
    · simp only [ne_eq, hcrc, not_false_eq_true, if_true]
      constructor
      · intro h; cases h
      · rintro ⟨h1, h2⟩; subst h1; exact absurd h2 hcrc

/-- Witness for C6: a raw (flag ≠ 0) entry over a concrete 3-byte archive,
extracted successfully because its stored CRC matches. -/
theorem getArchiveFile_crc_gate_witness :
    let inflateW : List Nat → Except String (List Nat) := fun l => .ok l
    let recW : FileRecord :=
      { Name := [], Path := [], OSize := 2, CSize := 2, Start := 0,
        CRC := crc32 [5, 6], Compressed := 1, CompressionLevel := 0 }
    GetArchiveFile inflateW [5, 6, 7] 0 recW = .ok [5, 6] := by
  intro inflateW recW
  have h := (getArchiveFile_crc_gate inflateW [5, 6, 7] 0 recW [5, 6]
    (by decide) (by decide) (by decide)).2 (by decide)
  exact h.mpr ⟨by decide, rfl⟩

/-! ## Record structures (xgstruct.go) — Go strings are `List Nat` of code
units, `float32`/`float64` fields are exact rationals of their bit
patterns, and the Delphi datetime doubles are kept as their raw rational
values (the calendar formatting applied by `DelphiDateTimeConv` is not
remodelled). -/

/-- `TimeSettingRecord`. -/
structure TimeSettingRecord where
  ClockType : Int
  PerGame : Bool
  Time1 : Int
  Time2 : Int
  Penalty : Int
  TimeLeft1 : Int
  TimeLeft2 : Int
  PenaltyMoney : Int
deriving DecidableEq

/-- `EvalLevelRecord`. -/
structure EvalLevelRecord where
  Level : Int
  IsDouble : Bool
deriving DecidableEq

/-- `EngineStructDoubleAction`: the cube-analysis sub-record. -/
structure EngineStructDoubleAction where
  Pos : Fin 26 → Int
  Level : Int
  Score : Int × Int
  Cube : Int
  CubePos : Int
  Jacoby : Int
  Crawford : Int
  Met : Int
  FlagDouble : Int
  IsBeaver : Int
  Eval : List ℚ
  EquB : ℚ
  EquDouble : ℚ
  EquDrop : ℚ
  LevelRequest : Int
  DoubleChoice3 : Int
  EvalDouble : List ℚ
deriving DecidableEq

/-- `EngineStructBestMoveRecord`: the checker-play analysis sub-record. -/
structure EngineStructBestMoveRecord where
  Pos : Fin 26 → Int
  Dice : Int × Int
  Level : Int
  Score : Int × Int
  Cube : Int
  CubePos : Int
  Crawford : Int
  Jacoby : Int
  NMoves : Int
  PosPlayed : List (Fin 26 → Int)
  Moves : List (List Int)
  EvalLevel : List EvalLevelRecord
  Eval : List (List ℚ)
  Unused : Int
  Met : Int
  Choice0 : Int
  Choice3 : Int
deriving DecidableEq

/-- `HeaderMatchEntry` (record type 0). -/
structure HeaderMatchEntry where
  Name : String
  EntryType : Nat
  Version : Int
  SPlayer1 : List Nat
  SPlayer2 : List Nat
  MatchLength : Int
  Variation : Int
  Crawford : Bool
  Jacoby : Bool
  Beaver : Bool
  AutoDouble : Bool
  Elo1 : ℚ
  Elo2 : ℚ
  Exp1 : Int
  Exp2 : Int
  Date : ℚ
  SEvent : List Nat
  GameId : Int
  CompLevel1 : Int
  CompLevel2 : Int
  CountForElo : Bool
  AddtoProfile1 : Bool
  AddtoProfile2 : Bool
  SLocation : List Nat
  GameMode : Int
  Imported : Bool
  SRound : List Nat
  Invert : Int
  Magic : Nat
  MoneyInitG : Int
  MoneyInitScore : Int × Int
  Entered : Bool
  Counted : Bool
  UnratedImp : Bool
  CommentHeaderMatch : Int
  CommentFooterMatch : Int
  IsMoneyMatch : Bool
  WinMoney : ℚ
  LoseMoney : ℚ
  Currency : Int
  FeeMoney : ℚ
  TableStake : Int
  SiteId : Int
  CubeLimit : Int
  AutoDoubleMax : Int
  Transcribed : Bool
  Event : List Nat
  Player1 : List Nat
  Player2 : List Nat
  Location : List Nat
  Round : List Nat
  TimeSetting : Option TimeSettingRecord
  TotTimeDelayMove : Int
  TotTimeDelayCube : Int
  TotTimeDelayMoveDone : Int
  TotTimeDelayCubeDone : Int
  Transcriber : List Nat
deriving DecidableEq

/-- `HeaderGameEntry` (record type 1). -/
structure HeaderGameEntry where
  Name : String
  EntryType : Nat
  Version : Int
  Score1 : Int
  Score2 : Int
  CrawfordApply : Bool
  PosInit : Fin 26 → Int
  GameNumber : Int
  InProgress : Bool
  CommentHeaderGame : Int
  CommentFooterGame : Int
  NumberOfAutoDoubles : Int
deriving DecidableEq

/-- `CubeEntry` (record type 2). -/
structure CubeEntry where
  Name : String
  EntryType : Nat
  Version : Int
  ActiveP : Int
  Double : Int
  Take : Int
  BeaverR : Int
  RaccoonR : Int
  CubeB : Int
  Position : Fin 26 → Int
  Doubled : Option EngineStructDoubleAction
  ErrCube : ℚ
  DiceRolled : List Nat
  ErrTake : ℚ
  RolloutIndexD : Int
  CompChoiceD : Int
  AnalyzeC : Int
  ErrBeaver : ℚ
  ErrRaccoon : ℚ
  AnalyzeCR : Int
  IsValid : Int
  TutorCube : Int
  TutorTake : Int
  ErrTutorCube : ℚ
  ErrTutorTake : ℚ
  FlaggedDouble : Bool
  CommentCube : Int
  EditedCube : Bool
  TimeDelayCube : Bool
  TimeDelayCubeDone : Bool
  NumberOfAutoDoubleCube : Int
  TimeBot : Int
  TimeTop : Int
deriving DecidableEq

/-- `MoveEntry` (record type 3). -/
structure MoveEntry where
  Name : String
  EntryType : Nat
  Version : Int
  PositionI : Fin 26 → Int
  PositionEnd : Fin 26 → Int
  ActiveP : Int
  Moves : List Int
  Dice : Int × Int
  CubeA : Int
  ErrorM : ℚ
  NMoveEval : Int
  DataMoves : Option EngineStructBestMoveRecord
  Played : Bool
  ErrMove : ℚ
  ErrLuck : ℚ
  CompChoice : Int
  InitEq : ℚ
  RolloutIndexM : List Int
  AnalyzeM : Int
  AnalyzeL : Int
  InvalidM : Int
  PositionTutor : Fin 26 → Int
  Tutor : Int
  ErrTutorMove : ℚ
  Flagged : Bool
  CommentMove : Int
  EditedMove : Bool
  TimeDelayMove : Nat
  TimeDelayMoveDone : Nat
  NumberOfAutoDoubleMove : Int
deriving DecidableEq

/-- `FooterGameEntry` (record type 4). -/
structure FooterGameEntry where
  Name : String
  EntryType : Nat
  Version : Int
  Score1g : Int
  Score2g : Int
  CrawfordApplyg : Bool
  Winner : Int
  PointsWon : Int
  Termination : Int
  ErrResign : ℚ
  ErrTakeResign : ℚ
  Eval : List ℚ
  EvalLevel : Int
deriving DecidableEq

/-- `FooterMatchEntry` (record type 5). -/
structure FooterMatchEntry where
  Name : String
  EntryType : Nat
  Version : Int
  Score1m : Int
  Score2m : Int
  WinnerM : Int
  Elo1m : ℚ
  Elo2m : ℚ
  Exp1m : Int
  Exp2m : Int
  Datem : ℚ
deriving DecidableEq

/-! ## Record decoders (xgstruct.go `FromStream` methods)

Each decoder takes the segment bytes and the byte offset of its record's
slot and returns the decoded record together with the cursor after the
last field it reads.  Go's `binary.Read` errors are discarded by every one
of these decoders (only the first read of a sub-record is even checked,
and its result is ignored by the caller), so they are total; a short
buffer simply yields zero-valued fields (see `readRaw`).  Byte offsets are
the cumulative widths of the preceding `binary.Read` calls in the Go
source. -/

/-- Read `count` little-endian `int32` values starting at `pos`. -/
def readI32List (data : List Nat) (pos count : Nat) : List Int :=
  (List.range count).map fun k => readI32 data (pos + 4 * k)

/-- Read `count` consecutive `float32` values starting at `pos`. -/
def readF32List (data : List Nat) (pos count : Nat) : List ℚ :=
  (List.range count).map fun k => readF32 data (pos + 4 * k)

/-- Read `count` consecutive `float64` values starting at `pos`. -/
def readF64List (data : List Nat) (pos count : Nat) : List ℚ :=
  (List.range count).map fun k => readF64 data (pos + 8 * k)

/-- Read `count` consecutive `int8` values starting at `pos`. -/
def readI8List (data : List Nat) (pos count : Nat) : List Int :=
  (List.range count).map fun k => readI8 data (pos + k)

/-- `TimeSettingRecord.FromStream`: ClockType, PerGame byte, 3 padding
bytes, then six `int32` fields — 32 bytes. -/
def timeSettingFromStream (data : List Nat) (pos : Nat) : TimeSettingRecord :=
  { ClockType := readI32 data pos
    PerGame := readBool data (pos + 4)
    Time1 := readI32 data (pos + 8)
    Time2 := readI32 data (pos + 12)
    Penalty := readI32 data (pos + 16)
    TimeLeft1 := readI32 data (pos + 20)
    TimeLeft2 := readI32 data (pos + 24)
    PenaltyMoney := readI32 data (pos + 28) }

/-- `EvalLevelRecord.FromStream`: `int16` level, a flag byte and one
padding byte — 4 bytes. -/
def evalLevelFromStream (data : List Nat) (pos : Nat) : EvalLevelRecord :=
  { Level := readI16 data pos
    IsDouble := readBool data (pos + 2) }

/-- `EngineStructDoubleAction.FromStream` — 132 bytes. -/
def doubleActionFromStream (data : List Nat) (pos : Nat) : EngineStructDoubleAction :=
  { Pos := readPos26 data pos
    Level := readI32 data (pos + 28)
    Score := (readI32 data (pos + 32), readI32 data (pos + 36))
    Cube := readI32 data (pos + 40)
    CubePos := readI32 data (pos + 44)
    Jacoby := readI32 data (pos + 48)
    Crawford := readI16 data (pos + 52)
    Met := readI16 data (pos + 54)
    FlagDouble := readI16 data (pos + 56)
    IsBeaver := readI16 data (pos + 58)
    Eval := readF32List data (pos + 60) 7
    EquB := readF32 data (pos + 88)
    EquDouble := readF32 data (pos + 92)
    EquDrop := readF32 data (pos + 96)
    LevelRequest := readI16 data (pos + 100)
    DoubleChoice3 := readI16 data (pos + 102)
    EvalDouble := readF32List data (pos + 104) 7 }

/-- `EngineStructBestMoveRecord.FromStream` — 2184 bytes (the dice are two
`int32` values, the historically mis-sized field fixed in the source). -/
def bestMoveFromStream (data : List Nat) (pos : Nat) : EngineStructBestMoveRecord :=
  { Pos := readPos26 data pos
    Dice := (readI32 data (pos + 28), readI32 data (pos + 32))
    Level := readI32 data (pos + 36)
    Score := (readI32 data (pos + 40), readI32 data (pos + 44))
    Cube := readI32 data (pos + 48)
    CubePos := readI32 data (pos + 52)
    Crawford := readI32 data (pos + 56)
    Jacoby := readI32 data (pos + 60)
    NMoves := readI32 data (pos + 64)
    PosPlayed := (List.range 32).map fun k => readPos26 data (pos + 68 + 26 * k)
    Moves := (List.range 32).map fun k => readI8List data (pos + 900 + 8 * k) 8
    EvalLevel := (List.range 32).map fun k => evalLevelFromStream data (pos + 1156 + 4 * k)
    Eval := (List.range 32).map fun k => readF32List data (pos + 1284 + 28 * k) 7
    Unused := readI8 data (pos + 2180)
    Met := readI8 data (pos + 2181)
    Choice0 := readI8 data (pos + 2182)
    Choice3 := readI8 data (pos + 2183) }

/-- `HeaderMatchEntry.FromStream`.  The decoder ignores its `version`
parameter entirely: every version gate reads the `Version` field embedded
in the record itself at offset 552 (after the `Invert` field), exactly as
in the Go source.  The returned cursor is the sum of the fixed 612-byte
prefix and the version-gated blocks (8 bytes at version ≥ 8, 1292 at
≥ 24, 32 at ≥ 25, 16 at ≥ 26, 258 at ≥ 30). -/
def headerMatchFromStream (data : List Nat) (pos : Nat) (version : Int) :
    HeaderMatchEntry × Nat :=
  let v : Int := readI32 data (pos + 552)
  ({ Name := "MatchInfo"
     EntryType := 0
     Version := v
     SPlayer1 := readShortStr data (pos + 9) 41
     SPlayer2 := readShortStr data (pos + 50) 41
     MatchLength := readI32 data (pos + 92)
     Variation := readI32 data (pos + 96)
     Crawford := readBool data (pos + 100)
     Jacoby := readBool data (pos + 101)
     Beaver := readBool data (pos + 102)
     AutoDouble := readBool data (pos + 103)
     Elo1 := readF64 data (pos + 104)
     Elo2 := readF64 data (pos + 112)
     Exp1 := readI32 data (pos + 120)
     Exp2 := readI32 data (pos + 124)
     Date := readF64 data (pos + 128)
     SEvent := readShortStr data (pos + 136) 129
     GameId := readI32 data (pos + 268)
     CompLevel1 := readI32 data (pos + 272)
     CompLevel2 := readI32 data (pos + 276)
     CountForElo := readBool data (pos + 280)
     AddtoProfile1 := readBool data (pos + 281)
     AddtoProfile2 := readBool data (pos + 282)
     SLocation := readShortStr data (pos + 283) 129
     GameMode := readI32 data (pos + 412)
     Imported := readBool data (pos + 416)
     SRound := readShortStr data (pos + 417) 129
     Invert := readI32 data (pos + 548)
     Magic := readU32 data (pos + 556)
     MoneyInitG := readI32 data (pos + 560)
     MoneyInitScore := (readI32 data (pos + 564), readI32 data (pos + 568))
     Entered := readBool data (pos + 572)
     Counted := readBool data (pos + 573)
     UnratedImp := readBool data (pos + 574)
     CommentHeaderMatch := readI32 data (pos + 576)
     CommentFooterMatch := readI32 data (pos + 580)
     IsMoneyMatch := readBool data (pos + 584)
     WinMoney := readF32 data (pos + 588)
     LoseMoney := readF32 data (pos + 592)
     Currency := readI32 data (pos + 596)
     FeeMoney := readF32 data (pos + 600)
     TableStake := readI32 data (pos + 604)
     SiteId := readI32 data (pos + 608)
     CubeLimit := if 8 ≤ v then readI32 data (pos + 612) else 0
     AutoDoubleMax := if 8 ≤ v then readI32 data (pos + 616) else 0
     Transcribed := if 24 ≤ v then readBool data (pos + 620) else false
     Event := if 24 ≤ v then readUTF16 data (pos + 622) 129 else []
     Player1 := if 24 ≤ v then readUTF16 data (pos + 880) 129 else []
     Player2 := if 24 ≤ v then readUTF16 data (pos + 1138) 129 else []
     Location := if 24 ≤ v then readUTF16 data (pos + 1396) 129 else []
     Round := if 24 ≤ v then readUTF16 data (pos + 1654) 129 else []
     TimeSetting := if 25 ≤ v then some (timeSettingFromStream data (pos + 1912)) else none
     TotTimeDelayMove := if 26 ≤ v then readI32 data (pos + 1944) else 0
     TotTimeDelayCube := if 26 ≤ v then readI32 data (pos + 1948) else 0
     TotTimeDelayMoveDone := if 26 ≤ v then readI32 data (pos + 1952) else 0
     TotTimeDelayCubeDone := if 26 ≤ v then readI32 data (pos + 1956) else 0
     Transcriber := if 30 ≤ v then readUTF16 data (pos + 1960) 129 else [] },
   pos + 612 + (if 8 ≤ v then 8 else 0) + (if 24 ≤ v then 1292 else 0) +
     (if 25 ≤ v then 32 else 0) + (if 26 ≤ v then 16 else 0) +
     (if 30 ≤ v then 258 else 0))

/-- `HeaderGameEntry.FromStream` (gates on the `version` parameter). -/
def headerGameFromStream (data : List Nat) (pos : Nat) (version : Int) :
    HeaderGameEntry × Nat :=
  ({ Name := "GameHeader"
     EntryType := 1
     Version := version
     Score1 := readI32 data (pos + 12)
     Score2 := readI32 data (pos + 16)
     CrawfordApply := readBool data (pos + 20)
     PosInit := readPos26 data (pos + 21)
     GameNumber := readI32 data (pos + 48)
     InProgress := readBool data (pos + 52)
     CommentHeaderGame := readI32 data (pos + 56)
     CommentFooterGame := readI32 data (pos + 60)
     NumberOfAutoDoubles := if 26 ≤ version then readI32 data (pos + 64) else 0 },
   pos + 64 + (if 26 ≤ version then 4 else 0))

/-- `CubeEntry.FromStream` (gates on the `version` parameter). -/
def cubeEntryFromStream (data : List Nat) (pos : Nat) (version : Int) :
    CubeEntry × Nat :=
  ({ Name := "Cube"
     EntryType := 2
     Version := version
     ActiveP := readI32 data (pos + 12)
     Double := readI32 data (pos + 16)
     Take := readI32 data (pos + 20)
     BeaverR := readI32 data (pos + 24)
     RaccoonR := readI32 data (pos + 28)
     CubeB := readI32 data (pos + 32)
     Position := readPos26 data (pos + 36)
     Doubled := some (doubleActionFromStream data (pos + 64))
     ErrCube := readF64 data (pos + 200)
     DiceRolled := readShortStr data (pos + 208) 3
     ErrTake := readF64 data (pos + 216)
     RolloutIndexD := readI32 data (pos + 224)
     CompChoiceD := readI32 data (pos + 228)
     AnalyzeC := readI32 data (pos + 232)
     ErrBeaver := readF64 data (pos + 240)
     ErrRaccoon := readF64 data (pos + 248)
     AnalyzeCR := readI32 data (pos + 256)
     IsValid := readI32 data (pos + 260)
     TutorCube := readI8 data (pos + 264)
     TutorTake := readI8 data (pos + 265)
     ErrTutorCube := readF64 data (pos + 272)
     ErrTutorTake := readF64 data (pos + 280)
     FlaggedDouble := readBool data (pos + 288)
     CommentCube := readI32 data (pos + 292)
     EditedCube := if 24 ≤ version then readBool data (pos + 296) else false
     TimeDelayCube := if 26 ≤ version then readBool data (pos + 297) else false
     TimeDelayCubeDone := if 26 ≤ version then readBool data (pos + 298) else false
     NumberOfAutoDoubleCube := if 27 ≤ version then readI32 data (pos + 300) else 0
     TimeBot := if 28 ≤ version then readI32 data (pos + 304) else 0
     TimeTop := if 28 ≤ version then readI32 data (pos + 308) else 0 },
   pos + 296 + (if 24 ≤ version then 1 else 0) + (if 26 ≤ version then 2 else 0) +
     (if 27 ≤ version then 5 else 0) + (if 28 ≤ version then 8 else 0))

/-- `MoveEntry.FromStream` (gates on the `version` parameter). -/
def moveEntryFromStream (data : List Nat) (pos : Nat) (version : Int) :
    MoveEntry × Nat :=
  ({ Name := "Move"
     EntryType := 3
     Version := version
     PositionI := readPos26 data (pos + 9)
     PositionEnd := readPos26 data (pos + 35)
     ActiveP := readI32 data (pos + 64)
     Moves := readI32List data (pos + 68) 8
     Dice := (readI32 data (pos + 100), readI32 data (pos + 104))
     CubeA := readI32 data (pos + 108)
     ErrorM := readF64 data (pos + 112)
     NMoveEval := readI32 data (pos + 120)
     DataMoves := some (bestMoveFromStream data (pos + 124))
     Played := readBool data (pos + 2308)
     ErrMove := readF64 data (pos + 2312)
     ErrLuck := readF64 data (pos + 2320)
     CompChoice := readI32 data (pos + 2328)
     InitEq := readF64 data (pos + 2336)
     RolloutIndexM := readI32List data (pos + 2344) 32
     AnalyzeM := readI32 data (pos + 2472)
     AnalyzeL := readI32 data (pos + 2476)
     InvalidM := readI32 data (pos + 2480)
     PositionTutor := readPos26 data (pos + 2484)
     Tutor := readI8 data (pos + 2510)
     ErrTutorMove := readF64 data (pos + 2512)
     Flagged := readBool data (pos + 2520)
     CommentMove := readI32 data (pos + 2524)
     EditedMove := if 24 ≤ version then readBool data (pos + 2528) else false
     TimeDelayMove := if 26 ≤ version then readU32 data (pos + 2532) else 0
     TimeDelayMoveDone := if 26 ≤ version then readU32 data (pos + 2536) else 0
     NumberOfAutoDoubleMove := if 27 ≤ version then readI32 data (pos + 2540) else 0 },
   pos + 2528 + (if 24 ≤ version then 1 else 0) + (if 26 ≤ version then 11 else 0) +
     (if 27 ≤ version then 4 else 0))

/-- `FooterGameEntry.FromStream` — 117 bytes. -/
def footerGameFromStream (data : List Nat) (pos : Nat) (version : Int) :
    FooterGameEntry × Nat :=
  ({ Name := "GameFooter"
     EntryType := 4
     Version := version
     Score1g := readI32 data (pos + 13)
     Score2g := readI32 data (pos + 17)
     CrawfordApplyg := readBool data (pos + 21)
     Winner := readI32 data (pos + 25)
     PointsWon := readI32 data (pos + 29)
     Termination := readI32 data (pos + 33)
     ErrResign := readF64 data (pos + 41)
     ErrTakeResign := readF64 data (pos + 49)
     Eval := readF64List data (pos + 57) 7
     EvalLevel := readI32 data (pos + 113) },
   pos + 117)

/-- `FooterMatchEntry.FromStream` — 57 bytes. -/
def footerMatchFromStream (data : List Nat) (pos : Nat) (version : Int) :
    FooterMatchEntry × Nat :=
  ({ Name := "MatchFooter"
     EntryType := 5
     Version := version
     Score1m := readI32 data (pos + 13)
     Score2m := readI32 data (pos + 17)
     WinnerM := readI32 data (pos + 21)
     Elo1m := readF64 data (pos + 25)
     Elo2m := readF64 data (pos + 33)
     Exp1m := readI32 data (pos + 41)
     Exp2m := readI32 data (pos + 45)
     Datem := readF64 data (pos + 49) },
   pos + 57)

/-! ## Record-stream loop (xgstruct.go `GameFileRecord.FromStream` and
xgimport.go `ParseGameFile`) -/

/-- The tagged union of decoded records (`GameFileRecord.Record`). -/
inductive XGRecord where
  | headerMatch (h : HeaderMatchEntry)
  | headerGame (h : HeaderGameEntry)
  | cube (c : CubeEntry)
  | move (m : MoveEntry)
  | footerGame (f : FooterGameEntry)
  | footerMatch (f : FooterMatchEntry)
deriving DecidableEq

/-- The two `binary.Read` failures of the 9-byte slot header: `io.EOF`
(no bytes remain) and `io.ErrUnexpectedEOF` (1–8 bytes remain, which the
read consumes). -/
inductive ReadErr where
  | eof
  | unexpectedEof
deriving DecidableEq

/-- The `switch g.EntryType` dispatch of `GameFileRecord.FromStream`: an
unrecognized discriminator yields a null record and moves the cursor
nowhere (the Go code has already seeked back to the slot start). -/
def dispatchRecord (entryType : Nat) (data : List Nat) (pos : Nat) (version : Int) :
    Option XGRecord × Nat :=
  match entryType with
  | 0 => let (h, p) := headerMatchFromStream data pos version; (some (.headerMatch h), p)
  | 1 => let (h, p) := headerGameFromStream data pos version; (some (.headerGame h), p)
  | 2 => let (c, p) := cubeEntryFromStream data pos version; (some (.cube c), p)
  | 3 => let (m, p) := moveEntryFromStream data pos version; (some (.move m), p)
  | 4 => let (f, p) := footerGameFromStream data pos version; (some (.footerGame f), p)
  | 5 => let (f, p) := footerMatchFromStream data pos version; (some (.footerMatch f), p)
  | _ => (none, pos)

/-- `GameFileRecord.FromStream`: peek the 9-byte header (whose last byte is
the entry-type discriminator), seek back, dispatch, then seek the cursor
forward by `2560 − (cursor − startPos)` so that each record occupies
exactly one 2560-byte slot.  The result pairs the outcome with the final
cursor: on `io.EOF` the cursor is unmoved, on `io.ErrUnexpectedEOF` the
partial header read has consumed the remainder of the buffer. -/
def gameFileRecordFromStream (data : List Nat) (pos : Nat) (version : Int) :
    Except ReadErr (Option XGRecord) × Nat :=
  let remaining := data.length - pos
  if remaining = 0 then (.error .eof, pos)
  else if remaining < 9 then (.error .unexpectedEof, data.length)
  else
    let entryType := byteAt data (pos + 8)
    let d := dispatchRecord entryType data pos version
    let realRecSize : Int := (d.2 : Int) - (pos : Int)
    (.ok d.1, ((d.2 : Int) + (2560 - realRecSize)).toNat)

/-- The `for {}` loop body of `ParseGameFile`, with an explicit recursion
bound (`fuel`); the bound is consulted only when a record decodes
successfully, and `ParseGameFile` supplies enough fuel for every input.
`io.EOF` ends the loop silently; any other decode error ends it silently
too when the reader is exhausted (`reader.Len() == 0`) and aborts with an
error otherwise; a null record (unknown discriminator) is not appended;
a decoded `HeaderMatchEntry` updates the running format version. -/
def parseGameFileAux (data : List Nat) : Nat → Int → Nat → List XGRecord →
    Except String (List XGRecord)
  | fuel, version, pos, acc =>
    match gameFileRecordFromStream data pos version with
    | (.error .eof, _) => .ok acc.reverse
    | (.error .unexpectedEof, p) =>
      if data.length - p = 0 then .ok acc.reverse else .error "read error"
    | (.ok rec, p) =>
      match fuel with
      | 0 => .error "loop bound exceeded"
      | fuel' + 1 =>
        let version' := match rec with
          | some (.headerMatch h) => h.Version
          | _ => version
        let acc' := match rec with
          | some r => r :: acc
          | none => acc
        parseGameFileAux data fuel' version' p acc'

/-- `ParseGameFile` (xgimport.go): run the record-stream loop from the
start of the segment.  `data.length / 2560 + 1` bounds the number of
successful iterations, each of which advances the cursor by one full
2560-byte slot. -/
def ParseGameFile (data : List Nat) (version : Int) : Except String (List XGRecord) :=
  parseGameFileAux data (data.length / 2560 + 1) version 0 []

/-- Trichotomy of one slot read: success lands exactly one slot further;
`io.EOF` leaves the cursor in place; `io.ErrUnexpectedEOF` exhausts the
reader. -/
theorem gameFileRecordFromStream_cases (data : List Nat) (pos : Nat) (version : Int) :
    (∃ rec, gameFileRecordFromStream data pos version = (.ok rec, pos + 2560) ∧
      9 ≤ data.length - pos) ∨
    (gameFileRecordFromStream data pos version = (.error .eof, pos) ∧
      data.length - pos = 0) ∨
    (gameFileRecordFromStream data pos version = (.error .unexpectedEof, data.length) ∧
      data.length - pos < 9) := by
  rw [gameFileRecordFromStream]
  by_cases h0 : data.length - pos = 0
  · right; left; simp [h0]
  · by_cases h9 : data.length - pos < 9
    · right; right; simp [h0, h9]
    · left
      refine ⟨(dispatchRecord (byteAt data (pos + 8)) data pos version).1, ?_, by omega⟩
      simp only [h0, h9, if_false, Prod.mk.injEq]
      exact ⟨trivial, by omega⟩

/-- C8: whenever `GameFileRecord.FromStream` returns without error, the
cursor after the call is exactly the cursor before the call plus 2560,
whatever the dispatched decoder consumed; in particular the offset
travelled is a multiple of 2560. -/
theorem gameFileRecord_advance (data : List Nat) (pos : Nat) (version : Int)
    (rec : Option XGRecord)
    (h : (gameFileRecordFromStream data pos version).1 = .ok rec) :
    (gameFileRecordFromStream data pos version).2 = pos + 2560 ∧
    ((gameFileRecordFromStream data pos version).2 - pos) % 2560 = 0 := by
  rcases gameFileRecordFromStream_cases data pos version with ⟨r, heq, _⟩ | ⟨heq, _⟩ | ⟨heq, _⟩
  · rw [heq]; exact ⟨rfl, by simp⟩
  · rw [heq] at h; cases h
  · rw [heq] at h; cases h

/-- Witness for C8 at a concrete 10-byte slot. -/
theorem gameFileRecord_advance_witness :
    (gameFileRecordFromStream [0, 0, 0, 0, 0, 0, 0, 0, 9, 0] 0 (-1)).2 = 0 + 2560 ∧
    ((gameFileRecordFromStream [0, 0, 0, 0, 0, 0, 0, 0, 9, 0] 0 (-1)).2 - 0) % 2560 = 0 :=
  gameFileRecord_advance [0, 0, 0, 0, 0, 0, 0, 0, 9, 0] 0 (-1) none (by decide)

/-- C9: a slot whose discriminator byte is not one of the six known entry
types (0–5) decodes to a null record without error, `ParseGameFile`
appends nothing for it, and the loop continues at the next slot. -/
theorem unknownRecordSkipped (data : List Nat) (pos : Nat) (version : Int)
    (fuel : Nat) (acc : List XGRecord)
    (h9 : 9 ≤ data.length - pos) (ht : 6 ≤ byteAt data (pos + 8)) :
    gameFileRecordFromStream data pos version = (.ok none, pos + 2560) ∧
    parseGameFileAux data (fuel + 1) version pos acc =
      parseGameFileAux data fuel version (pos + 2560) acc := by
  obtain ⟨k, hk⟩ : ∃ k, byteAt data (pos + 8) = k + 6 :=
    ⟨byteAt data (pos + 8) - 6, by omega⟩
  have hdisp : dispatchRecord (byteAt data (pos + 8)) data pos version = (none, pos) := by
    rw [hk]; rfl
  have hstream : gameFileRecordFromStream data pos version = (.ok none, pos + 2560) := by
    rw [gameFileRecordFromStream]
    have h0 : ¬ (data.length - pos = 0) := by omega
    have h9' : ¬ (data.length - pos < 9) := by omega
    simp only [h0, h9', if_false, hdisp, Prod.mk.injEq]
    exact ⟨trivial, by omega⟩
  refine ⟨hstream, ?_⟩
  rw [parseGameFileAux, hstream]

/-- Witness for C9 at a concrete slot with discriminator 9. -/
theorem unknownRecordSkipped_witness :
    gameFileRecordFromStream [0, 0, 0, 0, 0, 0, 0, 0, 9, 0] 0 (-1) = (.ok none, 0 + 2560) ∧
    parseGameFileAux [0, 0, 0, 0, 0, 0, 0, 0, 9, 0] (0 + 1) (-1) 0 [] =
      parseGameFileAux [0, 0, 0, 0, 0, 0, 0, 0, 9, 0] 0 (-1) (0 + 2560) [] :=
  unknownRecordSkipped [0, 0, 0, 0, 0, 0, 0, 0, 9, 0] 0 (-1) 0 [] (by decide) (by decide)

/-- C4 (counterexample): a 10-byte buffer ends mid-record (its length is
not a multiple of the 2560-byte slot size and is nonzero), yet
`ParseGameFile` ends without error — the partial final slot never raises
a truncation error, contradicting the claim's second half. -/
theorem parseGameFile_midslot_cex :
    ParseGameFile [0, 0, 0, 0, 0, 0, 0, 0, 9, 0] (-1) = .ok [] ∧
    ([0, 0, 0, 0, 0, 0, 0, 0, 9, 0] : List Nat).length % 2560 ≠ 0 ∧
    ([0, 0, 0, 0, 0, 0, 0, 0, 9, 0] : List Nat).length ≠ 0 := by
  refine ⟨by decide, by decide, by decide⟩

/-- C4 (amended): the record-stream loop ends without error when the
remaining bytes run out exactly at a 2560-byte slot boundary, and it also
ends without error when the buffer ends mid-record (the partial final
slot is decoded against the zero-padding semantics of `binary.Read` and
the remainder is consumed); `ParseGameFile` never returns an error. -/
theorem parseGameFile_no_error (data : List Nat) (version : Int) :
    ∃ recs, ParseGameFile data version = .ok recs := by
  suffices h : ∀ fuel pos version acc, data.length < pos + fuel * 2560 + 9 →
      ∃ recs, parseGameFileAux data fuel version pos acc = .ok recs by
    apply h
    have hdm := Nat.div_add_mod data.length 2560
    have hml : data.length % 2560 < 2560 := Nat.mod_lt _ (by omega)
    omega
  intro fuel
  induction fuel with
  | zero =>
    intro pos version acc hlt
    rw [parseGameFileAux]
    rcases gameFileRecordFromStream_cases data pos version with
      ⟨r, heq, hge⟩ | ⟨heq, _⟩ | ⟨heq, hlt9⟩
    · omega
    · rw [heq]; exact ⟨acc.reverse, rfl⟩
    · rw [heq]; simp
  | succ n ih =>
    intro pos version acc hlt
    rw [parseGameFileAux]
    rcases gameFileRecordFromStream_cases data pos version with
      ⟨r, heq, hge⟩ | ⟨heq, _⟩ | ⟨heq, hlt9⟩
    · rw [heq]
      exact ih (pos + 2560) _ _ (by omega)
    · rw [heq]; exact ⟨acc.reverse, rfl⟩
    · rw [heq]; simp

/-- C5: match-header version gating.  The decode result is independent of
the `version` parameter passed in (the gate is decided by the version
value read from the record itself).  When the embedded version equals 23,
every field introduced at version ≥ 24 (`Transcribed` and the Unicode
`Event`/`Player1`/`Player2`/`Location`/`Round` strings), at ≥ 25
(`TimeSetting`), at ≥ 26 (the four delay timers) and at ≥ 30
(`Transcriber`) is left at its zero/default value, and the cursor stops
at `pos + 620` — the fixed prefix plus the version ≥ 8 block only, so no
bytes are consumed for the gated fields.  When the embedded version
equals 30, `Transcriber` is read from the stream (offset 1960 of the
slot) and the cursor stops at `pos + 2218`. -/
theorem headerMatch_version_gating (data : List Nat) (pos : Nat) (v1 v2 : Int) :
    (headerMatchFromStream data pos v1 = headerMatchFromStream data pos v2) ∧
    (pos + 620 ≤ data.length → (headerMatchFromStream data pos v1).1.Version = 23 →
      (headerMatchFromStream data pos v1).1.Transcribed = false ∧
      (headerMatchFromStream data pos v1).1.Event = [] ∧
      (headerMatchFromStream data pos v1).1.Player1 = [] ∧
      (headerMatchFromStream data pos v1).1.Player2 = [] ∧
      (headerMatchFromStream data pos v1).1.Location = [] ∧
      (headerMatchFromStream data pos v1).1.Round = [] ∧
      (headerMatchFromStream data pos v1).1.TimeSetting = none ∧
      (headerMatchFromStream data pos v1).1.TotTimeDelayMove = 0 ∧
      (headerMatchFromStream data pos v1).1.TotTimeDelayCube = 0 ∧
      (headerMatchFromStream data pos v1).1.TotTimeDelayMoveDone = 0 ∧
      (headerMatchFromStream data pos v1).1.TotTimeDelayCubeDone = 0 ∧
      (headerMatchFromStream data pos v1).1.Transcriber = [] ∧
      (headerMatchFromStream data pos v1).2 = pos + 620) ∧
    (pos + 2218 ≤ data.length → (headerMatchFromStream data pos v1).1.Version = 30 →
      (headerMatchFromStream data pos v1).1.Transcriber =
        readUTF16 data (pos + 1960) 129 ∧
      (headerMatchFromStream data pos v1).2 = pos + 2218) := by
  refine ⟨rfl, ?_, ?_⟩
  · intro _ hv
    have hv' : readI32 data (pos + 552) = 23 := by
      simpa [headerMatchFromStream] using hv
    simp [headerMatchFromStream, hv']
  · intro _ hv
    have hv' : readI32 data (pos + 552) = 30 := by
      simpa [headerMatchFromStream] using hv
    simp [headerMatchFromStream, hv']

set_option maxRecDepth 8000 in
/-- Witness for C5: a concrete byte buffer whose embedded version field
(at offset 552) holds 23. -/
theorem headerMatch_version_gating_witness :
    let dW : List Nat := List.replicate 552 0 ++ 23 :: 0 :: 0 :: 0 :: List.replicate 64 0
    (headerMatchFromStream dW 0 7).1.Version = 23 ∧
    (headerMatchFromStream dW 0 7).1.TimeSetting = none ∧
    (headerMatchFromStream dW 0 7).2 = 0 + 620 := by
  intro dW
  have hv : (headerMatchFromStream dW 0 7).1.Version = 23 := by decide
  obtain ⟨hA, hB, hC, hD, hE, hF, hG, hH, hI, hJ, hK, hL, hM⟩ :=
    (headerMatch_version_gating dW 0 7 7).2.1 (by decide) hv
  exact ⟨hv, hG, hM⟩

/-! ## Domain model (xglight.go types, current revision) and the Domain
Assembler (`ParseXG` record loop, `convertCubeEntry`, `convertMoveEntry`
in xgtext.go/xglight.go, current revision with the sentinel filter and
perspective normalization) -/

/-- `MatchMetadata`.  `DateTime` keeps the raw Delphi datetime rational
(`HeaderMatchEntry.Date` of this embedding); `ProductVersion` is filled
from the GDF header segment, which is outside the record loop modelled
here, so it keeps its zero value. -/
structure MatchMetadata where
  Player1Name : List Nat
  Player2Name : List Nat
  Location : List Nat
  Event : List Nat
  Round : List Nat
  DateTime : ℚ
  MatchLength : Int
  EngineVersion : Int
  ProductVersion : List Nat
deriving DecidableEq

/-- `CheckerAnalysis`. -/
structure CheckerAnalysis where
  Position : Position
  Move : List Int
  Player1WinRate : ℚ
  Player1GammonRate : ℚ
  Player1BgRate : ℚ
  Player2GammonRate : ℚ
  Player2BgRate : ℚ
  Equity : ℚ
  AnalysisDepth : Int
deriving DecidableEq

/-- `CubeAnalysis`. -/
structure CubeAnalysis where
  Player1WinRate : ℚ
  Player1GammonRate : ℚ
  Player1BgRate : ℚ
  Player2GammonRate : ℚ
  Player2BgRate : ℚ
  CubelessNoDouble : ℚ
  CubelessDouble : ℚ
  CubefulNoDouble : ℚ
  CubefulDoubleTake : ℚ
  CubefulDoublePass : ℚ
  WrongPassTakePercent : ℚ
  AnalysisDepth : Int
deriving DecidableEq

/-- `CheckerMove`. -/
structure CheckerMove where
  Position : Position
  ActivePlayer : Int
  Dice : Int × Int
  PlayedMove : List Int
  Analysis : List CheckerAnalysis
deriving DecidableEq

/-- `CubeMove`. -/
structure CubeMove where
  Position : Position
  ActivePlayer : Int
  CubeAction : Int
  Analysis : Option CubeAnalysis
deriving DecidableEq

/-- `Move`: tagged union of a checker play and a cube decision. -/
structure Move where
  MoveType : String
  CheckerMove : Option CheckerMove
  CubeMove : Option CubeMove
deriving DecidableEq

/-- `Game`. -/
structure Game where
  GameNumber : Int
  InitialScore : Int × Int
  Moves : List Move
  Winner : Int
  PointsWon : Int
deriving DecidableEq

/-- `Match`. -/
structure Match where
  Metadata : MatchMetadata
  Games : List Game
deriving DecidableEq

/-- `getPreferredString`: the first non-empty string. -/
def getPreferredString (preferred fallback : List Nat) : List Nat :=
  if preferred ≠ [] then preferred else fallback

/-- `convertCubeEntry` (xgtext.go, current revision): build the position,
swap it to the player on roll's perspective when `ActiveP = -1`, copy the
decision code into `CubeAction`, and, when the analysis sub-record is
present, derive the rates, the wrong pass/take percentage (only when the
cubeful no-double equity is the greatest of the three cubeful equities;
`-1` otherwise), and the doubled cubeless equity (twice the stored
cubeless equity), overriding the position's score/cube/owner from the
sub-record. -/
def convertCubeEntry (c : CubeEntry) : CubeMove :=
  let position0 : Position :=
    { Checkers := c.Position, Cube := c.CubeB, CubePos := 0, Score := (0, 0) }
  let position := if c.ActiveP = -1 then swapPosition position0 else position0
  match c.Doubled with
  | none =>
    { Position := position, ActivePlayer := c.ActiveP, CubeAction := c.Double,
      Analysis := none }
  | some d =>
    let equNoDouble := d.EquB
    let equDoubleTake := d.EquDouble
    let equDoublePass := d.EquDrop
    let wrongPassTakePercent : ℚ :=
      if equNoDouble ≥ equDoubleTake ∧ equNoDouble ≥ equDoublePass then
        let equRight := if equDoubleTake < equDoublePass then equDoubleTake else equDoublePass
        let equWrong := if equDoubleTake < equDoublePass then equDoublePass else equDoubleTake
        let denominator := equWrong - equRight
        if denominator ≠ 0 then (equNoDouble - equRight) / denominator * 100 else 0
      else -1
    let analysis : CubeAnalysis :=
      { Player1WinRate := 1 - d.Eval.getD 2 0
        Player1GammonRate := d.Eval.getD 4 0
        Player1BgRate := d.Eval.getD 5 0
        Player2GammonRate := d.Eval.getD 1 0
        Player2BgRate := d.Eval.getD 0 0
        CubelessNoDouble := d.Eval.getD 6 0
        CubelessDouble := d.Eval.getD 6 0 * 2
        CubefulNoDouble := d.EquB
        CubefulDoubleTake := d.EquDouble
        CubefulDoublePass := d.EquDrop
        WrongPassTakePercent := wrongPassTakePercent
        AnalysisDepth := d.Level }
    { Position := { position with Score := d.Score, Cube := d.Cube, CubePos := d.CubePos }
      ActivePlayer := c.ActiveP
      CubeAction := c.Double
      Analysis := some analysis }

/-- The played-move remapping of `convertMoveEntry`: −1 unused, −2 bear
off, 24 → 25 (bar), otherwise 0-based point + 1. -/
def convertPlayedMove (mv : List Int) : List Int :=
  mv.map fun v => if v = -1 then -1 else if v = -2 then -2 else if v = 24 then 25 else v + 1

/-- The per-alternative move remapping of `convertMoveEntry`: same as
`convertPlayedMove` except every slot after the first −1 also becomes −1
(the `endOfMove` flag in the Go loop). -/
def convertAnalysisMove (mv : List Int) : List Int :=
  (mv.foldl (fun (st : List Int × Bool) v =>
    if v = -1 ∨ st.2 then (st.1 ++ [-1], true)
    else if v = -2 then (st.1 ++ [-2], st.2)
    else if v = 24 then (st.1 ++ [25], st.2)
    else (st.1 ++ [v + 1], st.2)) ([], false)).1

/-- `convertMoveEntry` (xgtext.go, current revision).  The sub-record's
cube-owner field appears in the Go source under its historical second
name; this embedding keeps the single `CubePos` field of the decoder. -/
def convertMoveEntry (m : MoveEntry) : CheckerMove :=
  let position0 : Position :=
    { Checkers := m.PositionI, Cube := m.CubeA, CubePos := 0, Score := (0, 0) }
  let position := if m.ActiveP = -1 then swapPosition position0 else position0
  let base : CheckerMove :=
    { Position := position, ActivePlayer := m.ActiveP, Dice := m.Dice,
      PlayedMove := convertPlayedMove m.Moves, Analysis := [] }
  match m.DataMoves with
  | none => base
  | some dm =>
    let numMoves := min dm.NMoves.toNat 32
    let analysis := (List.range numMoves).map fun i =>
      ({ Position :=
           { Checkers := dm.PosPlayed.getD i (fun _ => 0), Cube := dm.Cube,
             CubePos := dm.CubePos, Score := dm.Score }
         Move := convertAnalysisMove (dm.Moves.getD i [])
         Player1WinRate := 1 - (dm.Eval.getD i []).getD 2 0
         Player1GammonRate := (dm.Eval.getD i []).getD 4 0
         Player1BgRate := (dm.Eval.getD i []).getD 5 0
         Player2GammonRate := (dm.Eval.getD i []).getD 1 0
         Player2BgRate := (dm.Eval.getD i []).getD 0 0
         Equity := (dm.Eval.getD i []).getD 6 0
         AnalysisDepth := (dm.EvalLevel.getD i { Level := 0, IsDouble := false }).Level }
        : CheckerAnalysis)
    { base with
      Position := { position with Score := dm.Score, Cube := dm.Cube, CubePos := dm.CubePos }
      Analysis := analysis }

/-- The mutable state of the `ParseXG` record loop: the match being built,
the game currently open (if any) and the running file version. -/
structure AsmState where
  metadata : MatchMetadata
  games : List Game
  currentGame : Option Game
  fileVersion : Int
deriving DecidableEq

/-- The initial assembler state (`var match Match`, `currentGame = nil`,
`fileVersion = -1`). -/
def asmInit : AsmState :=
  { metadata :=
      { Player1Name := [], Player2Name := [], Location := [], Event := [],
        Round := [], DateTime := 0, MatchLength := 0, EngineVersion := 0,
        ProductVersion := [] }
    games := []
    currentGame := none
    fileVersion := -1 }

/-- One iteration of the `switch r := rec.(type)` loop of `ParseXG`
(xgtext.go, current revision): a match header replaces the metadata and
the running version; a game header opens a new game; a cube record whose
decision code is not the −2 sentinel is converted and appended to the
open game (a sentinel record, or any cube/move record with no open game,
is dropped); a move record is converted and appended; a game footer
closes the open game into the match; a match footer is ignored. -/
def processRecord (s : AsmState) (r : XGRecord) : AsmState :=
  match r with
  | .headerMatch h =>
    { s with
      fileVersion := h.Version
      metadata :=
        { Player1Name := getPreferredString h.Player1 h.SPlayer1
          Player2Name := getPreferredString h.Player2 h.SPlayer2
          Location := getPreferredString h.Location h.SLocation
          Event := getPreferredString h.Event h.SEvent
          Round := getPreferredString h.Round h.SRound
          DateTime := h.Date
          MatchLength := h.MatchLength
          EngineVersion := h.Version
          ProductVersion := [] } }
  | .headerGame h =>
    { s with currentGame := some (
      { GameNumber := h.GameNumber
        InitialScore := (h.Score1, h.Score2)
        Moves := []
        Winner := 0
        PointsWon := 0 : Game }) }
  | .cube c =>
    match s.currentGame with
    | none => s
    | some g =>
      if c.Double ≠ -2 then
        { s with currentGame := some (
          { g with Moves := g.Moves ++
              [{ MoveType := "cube", CheckerMove := none,
                 CubeMove := some (convertCubeEntry c) }] }) }
      else s
  | .move m =>
    match s.currentGame with
    | none => s
    | some g =>
      { s with currentGame := some (
        { g with Moves := g.Moves ++
            [{ MoveType := "checker",
               CheckerMove := some (convertMoveEntry m), CubeMove := none }] }) }
  | .footerGame f =>
    match s.currentGame with
    | none => s
    | some g =>
      { s with
        games := s.games ++ [{ g with Winner := f.Winner, PointsWon := f.PointsWon }]
        currentGame := none }
  | .footerMatch _ => s

/-- The `for _, rec := range records` loop of `ParseXG` over one decoded
record list, returning the assembled `Match` (games closed by a footer;
an unclosed current game is discarded with the loop state). -/
def parseXGRecords (recs : List XGRecord) : Match :=
  let s := recs.foldl processRecord asmInit
  { Metadata := s.metadata, Games := s.games }

theorem ite_lt_eq_min (a b : ℚ) : (if a < b then a else b) = min a b := by
  by_cases h : a < b
  · rw [if_pos h, min_eq_left h.le]
  · rw [if_neg h, min_eq_right (not_lt.mp h)]

theorem ite_lt_eq_max (a b : ℚ) : (if a < b then b else a) = max a b := by
  by_cases h : a < b
  · rw [if_pos h, max_eq_right h.le]
  · rw [if_neg h, max_eq_left (not_lt.mp h)]

/-- C7: for a cube decision with analysis data, the wrong pass/take
percentage is computed only when the cubeful no-double equity is the
greatest of the three cubeful equities, and then equals 100 times the
interpolation solution `(equityNoDouble − equityRight) /
(equityWrong − equityRight)` with `equityRight` the smaller and
`equityWrong` the larger of the double/take and double/pass equities
(rational division by zero is 0, matching the code's 0 result when the
two response equities coincide); otherwise the field keeps the
not-applicable value −1. -/
theorem convertCubeEntry_wrongPassTake (c : CubeEntry) (d : EngineStructDoubleAction)
    (hd : c.Doubled = some d) :
    ∃ a, (convertCubeEntry c).Analysis = some a ∧
      ((d.EquB ≥ d.EquDouble ∧ d.EquB ≥ d.EquDrop) →
        a.WrongPassTakePercent =
          100 * ((d.EquB - min d.EquDouble d.EquDrop) /
            (max d.EquDouble d.EquDrop - min d.EquDouble d.EquDrop))) ∧
      (¬ (d.EquB ≥ d.EquDouble ∧ d.EquB ≥ d.EquDrop) →
        a.WrongPassTakePercent = -1) := by
  unfold convertCubeEntry
  rw [hd]
  refine ⟨_, rfl, ?_, ?_⟩
  · intro hge
    simp only [if_pos hge, ite_lt_eq_min, ite_lt_eq_max]
    by_cases hden : max d.EquDouble d.EquDrop - min d.EquDouble d.EquDrop = 0
    · rw [if_neg (by simpa using hden), hden, div_zero, mul_zero]
    · rw [if_pos (by simpa using hden)]
      exact mul_comm _ 100
  · intro hge
    simp only [if_neg hge]

/-- Witness for C7: a concrete cube record whose no-double equity 2 beats
take 1 and pass 3/2, giving `100 · (2 − 1)/(3/2 − 1) = 200`. -/
theorem convertCubeEntry_wrongPassTake_witness :
    let dW : EngineStructDoubleAction :=
      { (doubleActionFromStream [] 0) with EquB := 2, EquDouble := 1, EquDrop := 3/2 }
    let cW : CubeEntry := { (cubeEntryFromStream [] 0 0).1 with Doubled := some dW }
    ∃ a, (convertCubeEntry cW).Analysis = some a ∧
      a.WrongPassTakePercent = 100 * ((2 - min 1 (3/2 : ℚ)) / (max 1 (3/2 : ℚ) - min 1 (3/2 : ℚ))) := by
  intro dW cW
  obtain ⟨a, ha, hbest, hnot⟩ := convertCubeEntry_wrongPassTake cW dW rfl
  exact ⟨a, ha, hbest (by constructor <;> norm_num)⟩

/-- Does a record hold the −2 "no-op" initial-position cube sentinel? -/
def isSentinelCube : XGRecord → Bool
  | .cube c => c.Double == -2
  | _ => false

theorem processRecord_sentinel (s : AsmState) (c : CubeEntry) (h : c.Double = -2) :
    processRecord s (.cube c) = s := by
  obtain ⟨md, gs, cg, fv⟩ := s
  cases cg <;> simp [processRecord, h]

theorem foldl_filter_sentinel (l : List XGRecord) (s : AsmState) :
    l.foldl processRecord s =
      (l.filter (fun r => ! isSentinelCube r)).foldl processRecord s := by
  induction l generalizing s with
  | nil => rfl
  | cons r t ih =>
    by_cases hr : isSentinelCube r = true
    · obtain ⟨c, rfl, hc⟩ : ∃ c, r = .cube c ∧ c.Double = -2 := by
        cases r with
        | cube c => exact ⟨c, rfl, by simpa [isSentinelCube] using hr⟩
        | _ => simp [isSentinelCube] at hr
      simp only [List.foldl_cons, List.filter_cons, hr, Bool.not_true,
        processRecord_sentinel s c hc]
      exact ih s
    · simp only [List.foldl_cons, List.filter_cons,
        Bool.not_eq_true] at *
      simp only [hr, Bool.not_false, if_pos, List.foldl_cons]
      exact ih (processRecord s r)

/-- Every move list built by the assembler carries no sentinel-derived
cube move: a cube-typed move's `CubeAction` (a verbatim copy of the
source record's decision code) is never −2. -/
def movesOK (ms : List Move) : Prop :=
  ∀ m ∈ ms, m.MoveType = "cube" → ∀ cm, m.CubeMove = some cm → cm.CubeAction ≠ -2

theorem convertCubeEntry_action (c : CubeEntry) :
    (convertCubeEntry c).CubeAction = c.Double := by
  unfold convertCubeEntry
  cases c.Doubled <;> rfl

theorem processRecord_movesOK (s : AsmState) (r : XGRecord)
    (hg : ∀ g ∈ s.games, movesOK g.Moves)
    (hc : ∀ g, s.currentGame = some g → movesOK g.Moves) :
    (∀ g ∈ (processRecord s r).games, movesOK g.Moves) ∧
    (∀ g, (processRecord s r).currentGame = some g → movesOK g.Moves) := by
  obtain ⟨md, gs, cg, fv⟩ := s
  cases r with
  | headerMatch h => exact ⟨hg, hc⟩
  | headerGame h =>
    refine ⟨hg, ?_⟩
    rintro g hgeq
    simp only [processRecord] at hgeq
    cases hgeq
    intro m hm
    simp at hm
  | cube c =>
    cases cg with
    | none => exact ⟨hg, hc⟩
    | some g0 =>
      simp only [processRecord]
      by_cases hD : c.Double ≠ -2
      · rw [if_pos hD]
        refine ⟨hg, ?_⟩
        rintro g hgeq
        simp only [Option.some.injEq] at hgeq
        cases hgeq
        intro m hm hty cm hcm
        rcases List.mem_append.mp hm with hmem | hmem
        · exact hc g0 rfl m hmem hty cm hcm
        · simp only [List.mem_singleton] at hmem
          subst hmem
          simp only [Option.some.injEq] at hcm
          subst hcm
          rw [convertCubeEntry_action]
          exact hD
      · rw [if_neg hD]
        exact ⟨hg, hc⟩
  | move m =>
    cases cg with
    | none => exact ⟨hg, hc⟩
    | some g0 =>
      simp only [processRecord]
      refine ⟨hg, ?_⟩
      rintro g hgeq
      simp only [Option.some.injEq] at hgeq
      cases hgeq
      intro mv hmv hty cm hcm
      rcases List.mem_append.mp hmv with hmem | hmem
      · exact hc g0 rfl mv hmem hty cm hcm
      · simp only [List.mem_singleton] at hmem
        subst hmem
        simp at hty
  | footerGame f =>
    cases cg with
    | none => exact ⟨hg, hc⟩
    | some g0 =>
      simp only [processRecord]
      refine ⟨?_, by rintro g ⟨⟩⟩
      intro g hgmem
      rcases List.mem_append.mp hgmem with hmem | hmem
      · exact hg g hmem
      · simp only [List.mem_singleton] at hmem
        subst hmem
        exact hc g0 rfl
  | footerMatch f => exact ⟨hg, hc⟩

theorem foldl_movesOK (l : List XGRecord) (s : AsmState)
    (hg : ∀ g ∈ s.games, movesOK g.Moves)
    (hc : ∀ g, s.currentGame = some g → movesOK g.Moves) :
    ∀ g ∈ (l.foldl processRecord s).games, movesOK g.Moves := by
  induction l generalizing s with
  | nil => exact hg
  | cons r t ih =>
    obtain ⟨hg', hc'⟩ := processRecord_movesOK s r hg hc
    exact ih (processRecord s r) hg' hc'

/-- C1: the Domain Assembler emits zero cube moves for a `CubeEntry` whose
decision code equals the −2 no-op sentinel.  First, such records are
complete no-ops: the assembled `Match` is unchanged when they are removed
from the record stream.  Second, every cube-typed move of every game in
the output carries a `CubeAction` (the verbatim decision code of the
record it was converted from) different from −2, so no move derived from
a sentinel record appears anywhere. -/
theorem parseXG_no_sentinel_cube (recs : List XGRecord) :
    parseXGRecords recs = parseXGRecords (recs.filter (fun r => ! isSentinelCube r)) ∧
    (∀ g ∈ (parseXGRecords recs).Games, ∀ m ∈ g.Moves,
      m.MoveType = "cube" → ∀ cm, m.CubeMove = some cm → cm.CubeAction ≠ -2) := by
  constructor
  · unfold parseXGRecords
    rw [← foldl_filter_sentinel]
  · intro g hgmem m hm hty cm hcm
    have := foldl_movesOK recs asmInit (by simp [asmInit]) (by simp [asmInit])
    exact this g hgmem m hm hty cm hcm

/-- Witness for C1: a stream with one sentinel and one real cube record —
the assembled match is unaffected by the sentinel, and the one emitted
cube move carries the real record's decision code, not −2. -/
theorem parseXG_no_sentinel_cube_witness :
    let cW : CubeEntry := (cubeEntryFromStream [] 0 0).1
    let recsW : List XGRecord :=
      [.headerGame (headerGameFromStream [] 0 0).1,
       .cube { cW with Double := -2 }, .cube { cW with Double := 1 },
       .footerGame (footerGameFromStream [] 0 0).1]
    parseXGRecords recsW = parseXGRecords (recsW.filter (fun r => ! isSentinelCube r)) ∧
    (convertCubeEntry { cW with Double := 1 }).CubeAction ≠ -2 := by
  intro cW recsW
  have h := parseXG_no_sentinel_cube recsW
  refine ⟨h.1, ?_⟩
  have hGames : (parseXGRecords recsW).Games =
      [({ GameNumber := (headerGameFromStream [] 0 0).1.GameNumber,
          InitialScore := ((headerGameFromStream [] 0 0).1.Score1,
            (headerGameFromStream [] 0 0).1.Score2),
          Moves := [{ MoveType := "cube",
                      CheckerMove := none,
                      CubeMove := some (convertCubeEntry { cW with Double := 1 }) }],
          Winner := (footerGameFromStream [] 0 0).1.Winner,
          PointsWon := (footerGameFromStream [] 0 0).1.PointsWon } : Game)] := rfl
  exact h.2 _ (hGames ▸ List.mem_cons_self _ _) _ (List.mem_cons_self _ _) rfl _ rfl

/-- Is a record a game footer? -/
def isFooterGame : XGRecord → Bool
  | .footerGame _ => true
  | _ => false

/-- Is a record a cube decision or a checker-play decision? -/
def isCubeOrMove : XGRecord → Bool
  | .cube _ => true
  | .move _ => true
  | _ => false

theorem processRecord_games (s : AsmState) (r : XGRecord)
    (h : isFooterGame r = false) : (processRecord s r).games = s.games := by
  obtain ⟨md, gs, cg, fv⟩ := s
  cases r with
  | footerGame f => simp [isFooterGame] at h
  | cube c =>
    cases cg with
    | none => rfl
    | some g0 => by_cases hD : c.Double ≠ -2 <;> simp [processRecord, hD]
  | move m => cases cg <;> rfl
  | headerMatch h => rfl
  | headerGame h => rfl
  | footerMatch f => rfl

theorem foldl_games_of_no_footer (M : List XGRecord) (s : AsmState)
    (h : ∀ r ∈ M, isFooterGame r = false) :
    (M.foldl processRecord s).games = s.games := by
  induction M generalizing s with
  | nil => rfl
  | cons r t ih =>
    rw [List.foldl_cons, ih (processRecord s r) (fun x hx => h x (List.mem_cons_of_mem r hx)),
      processRecord_games s r (h r (List.mem_cons_self r t))]

theorem processRecord_init_drop (r : XGRecord) (h : isCubeOrMove r = true) :
    processRecord asmInit r = asmInit := by
  cases r with
  | cube c => rfl
  | move m => rfl
  | _ => simp [isCubeOrMove] at h

/-- C10: games reach the output only through a game footer.  First, a
`HeaderGameEntry` that is followed only by footer-free records to the end
of the stream contributes nothing: the output games (and hence all the
opened game's converted moves) are exactly those assembled from the
records before it.  Second, cube and checker-play records seen before any
game header are dropped silently: deleting such a prefix leaves the
assembled `Match` unchanged (the assembler is total, so no error is ever
raised for them). -/
theorem parseXG_game_lifecycle :
    (∀ (L M : List XGRecord) (h : HeaderGameEntry),
      (∀ r ∈ M, isFooterGame r = false) →
      (parseXGRecords (L ++ .headerGame h :: M)).Games = (parseXGRecords L).Games) ∧
    (∀ (P L : List XGRecord), (∀ r ∈ P, isCubeOrMove r = true) →
      parseXGRecords (P ++ L) = parseXGRecords L) := by
  constructor
  · intro L M h hM
    unfold parseXGRecords
    simp only [List.foldl_append, List.foldl_cons]
    rw [foldl_games_of_no_footer M _ hM]
    rfl
  · intro P L hP
    unfold parseXGRecords
    rw [List.foldl_append]
    have hfix : P.foldl processRecord asmInit = asmInit := by
      induction P with
      | nil => rfl
      | cons r t ih =>
        rw [List.foldl_cons, processRecord_init_drop r (hP r (List.mem_cons_self r t))]
        exact ih (fun x hx => hP x (List.mem_cons_of_mem r hx))
    rw [hfix]

/-- Witness for C10: a header-game record followed by an unfooted cube
record yields no game, and a cube record before any game header is
dropped. -/
theorem parseXG_game_lifecycle_witness :
    let cW : CubeEntry := (cubeEntryFromStream [] 0 0).1
    let hgW : HeaderGameEntry := (headerGameFromStream [] 0 0).1
    (parseXGRecords [.headerGame hgW, .cube cW]).Games = (parseXGRecords []).Games ∧
    parseXGRecords [.cube cW, .headerGame hgW] = parseXGRecords [.headerGame hgW] := by
  intro cW hgW
  constructor
  · exact parseXG_game_lifecycle.1 [] [.cube cW] hgW (by decide)
  · exact parseXG_game_lifecycle.2 [.cube cW] [.headerGame hgW] (by decide)

end XG
